import Mathlib

/-!
Verification development for the EZ_Archive presentation components:
a metadata search page (learning records), a chat summary modal, and a
mistake-book review page.  The client-side logic of each component is
embedded as pure Lean functions over explicit state records; external
API providers (search, summarize, update) are passed in as `Except`
valued parameters, success corresponding to a resolved promise and
`Except.error` to a rejected one, following the collaborator contracts
of the specification.
-/

/-- Metadata bag carried by a chat record; every field is optional in the
source (`chat.meta?.subject`, `chat.meta?.knowledge_points || []`, ...). -/
structure ChatMeta where
  subject : Option String
  knowledge_points : Option (List String)
  tags : Option (List String)
deriving DecidableEq, Repr

/-- A raw chat record as returned by the search / mistake providers. -/
structure Chat where
  id : String
  title : String
  updated_at : Nat
  meta : Option ChatMeta
deriving DecidableEq, Repr

/-- A chat record extended with the derived, display-only `time_range`
field, as produced by `results.map(chat => ({...chat, time_range:
getTimeRange(chat.updated_at)}))` in both list-rendering components. -/
structure AnnotatedChat extends Chat where
  time_range : String
deriving DecidableEq, Repr

/-- The result-annotation step shared by the search page and the mistake
book: map each record to a copy extended with `time_range` computed by
the (external) time-range formatter from its `updated_at`. -/
def annotateChats (getTimeRange : Nat → String) (chats : List Chat) :
    List AnnotatedChat :=
  chats.map (fun chat => { toChat := chat, time_range := getTimeRange chat.updated_at })

namespace LearningRecords

/-- The filter-criteria object assembled inside `performSearch`: the
local `filters` object gets a `subject` / `knowledge_points` / `tags`
key only when the corresponding facet value is non-empty. An absent key
is `none`. -/
structure FilterCriteria where
  subject : Option String
  knowledge_points : Option (List String)
  tags : Option (List String)
deriving DecidableEq, Repr

/-- The criteria object with no keys at all. -/
def FilterCriteria.isEmpty (c : FilterCriteria) : Bool :=
  c.subject.isNone && c.knowledge_points.isNone && c.tags.isNone

/-- Component state of the learning-records search page: the three facet
variables, the cached result set, and the request / UI flags. -/
structure PageState where
  selectedSubject : String
  selectedKnowledgePoints : List String
  selectedTags : List String
  searchResults : List AnnotatedChat
  loading : Bool
  searchPerformed : Bool
  showSubjectDropdown : Bool
  showKnowledgePointsDropdown : Bool
  showTagsDropdown : Bool
deriving DecidableEq, Repr

/-- The initial values of the component's state variables. -/
def initPageState : PageState :=
  { selectedSubject := ""
    selectedKnowledgePoints := []
    selectedTags := []
    searchResults := []
    loading := false
    searchPerformed := false
    showSubjectDropdown := false
    showKnowledgePointsDropdown := false
    showTagsDropdown := false }

/-- The `filters` object built at the start of `performSearch`: each
facet contributes a key only when its value is truthy (a non-empty
string) resp. a non-empty list. -/
def buildFilters (st : PageState) : FilterCriteria :=
  { subject := if st.selectedSubject != "" then some st.selectedSubject else none
    knowledge_points :=
      if st.selectedKnowledgePoints.length > 0 then some st.selectedKnowledgePoints else none
    tags := if st.selectedTags.length > 0 then some st.selectedTags else none }

/-- The reactive `hasFilters` flag: `selectedSubject ||
selectedKnowledgePoints.length > 0 || selectedTags.length > 0`, with JS
string truthiness rendered as inequality with the empty string. -/
def hasFilters (st : PageState) : Bool :=
  (st.selectedSubject != "") || decide (st.selectedKnowledgePoints.length > 0) ||
    decide (st.selectedTags.length > 0)

/-- `clearFilters`: reset the three facets, drop the cached results and
the `searchPerformed` flag. -/
def clearFilters (st : PageState) : PageState :=
  { st with
    selectedSubject := ""
    selectedKnowledgePoints := []
    selectedTags := []
    searchResults := []
    searchPerformed := false }

/-- `removeKnowledgePoint(kp)`: filter the selection, keeping items
different from `kp`. -/
def removeKnowledgePoint (kp : String) (st : PageState) : PageState :=
  { st with
    selectedKnowledgePoints := st.selectedKnowledgePoints.filter (fun item => item != kp) }

/-- `removeTag(tag)`: filter the selection, keeping items different from
`tag`. -/
def removeTag (tag : String) (st : PageState) : PageState :=
  { st with selectedTags := st.selectedTags.filter (fun item => item != tag) }

/-- `addKnowledgePoint(kp)`: append `kp` when not already selected, then
close the dropdown (unconditionally). -/
def addKnowledgePoint (kp : String) (st : PageState) : PageState :=
  let st1 :=
    if st.selectedKnowledgePoints.contains kp then st
    else { st with selectedKnowledgePoints := st.selectedKnowledgePoints ++ [kp] }
  { st1 with showKnowledgePointsDropdown := false }

/-- `addTag(tag)`: append `tag` when not already selected, then close the
dropdown (unconditionally). -/
def addTag (tag : String) (st : PageState) : PageState :=
  let st1 :=
    if st.selectedTags.contains tag then st
    else { st with selectedTags := st.selectedTags ++ [tag] }
  { st1 with showTagsDropdown := false }

/-- `performSearch`: set the loading / performed flags, build the filter
criteria, call the external search provider, and on a resolved call
replace `searchResults` with the annotated response; on a rejected call
leave the results untouched.  `finally` clears `loading` on both paths. -/
def performSearch (provider : FilterCriteria → Except Unit (List Chat))
    (getTimeRange : Nat → String) (st : PageState) : PageState :=
  let st1 := { st with loading := true, searchPerformed := true }
  match provider (buildFilters st1) with
  | Except.ok results =>
      { st1 with searchResults := annotateChats getTimeRange results, loading := false }
  | Except.error _ => { st1 with loading := false }

/-- A user action on one multi-valued facet: selecting a value from the
dropdown (the `addKnowledgePoint` / `addTag` handlers) or deleting a
selected chip (the `removeKnowledgePoint` / `removeTag` handlers). -/
inductive FacetOp where
  | add (v : String)
  | remove (v : String)
deriving DecidableEq, Repr

/-- The effect of one facet action on the underlying selection list:
exactly the bodies of the add / remove handlers (append when absent;
filter out the value). -/
def applyMultiOp (l : List String) (op : FacetOp) : List String :=
  match op with
  | FacetOp.add v => if l.contains v then l else l ++ [v]
  | FacetOp.remove v => l.filter (fun item => item != v)

/-- Run a sequence of facet actions on a selection list, left to right. -/
def runMultiOps (ops : List FacetOp) (l : List String) : List String :=
  ops.foldl applyMultiOp l

/-- One facet action dispatched to the knowledge-points handlers. -/
def applyKpOp (st : PageState) (op : FacetOp) : PageState :=
  match op with
  | FacetOp.add v => addKnowledgePoint v st
  | FacetOp.remove v => removeKnowledgePoint v st

/-- Run a sequence of knowledge-point actions on the page state. -/
def runKpOps (ops : List FacetOp) (st : PageState) : PageState :=
  ops.foldl applyKpOp st

/-- One facet action dispatched to the tag handlers. -/
def applyTagOp (st : PageState) (op : FacetOp) : PageState :=
  match op with
  | FacetOp.add v => addTag v st
  | FacetOp.remove v => removeTag v st

/-- Run a sequence of tag actions on the page state. -/
def runTagOps (ops : List FacetOp) (st : PageState) : PageState :=
  ops.foldl applyTagOp st

end LearningRecords

namespace SummaryModal

/-- The editable summary data held by the chat-summary modal (and the
shape of the summarization provider's response, which is spread into
it). -/
structure SummaryData where
  subject : String
  knowledge_points : List String
  summary : String
  tags : List String
deriving DecidableEq, Repr

/-- The triple sent to the update provider by `saveSummary`. -/
structure SummaryPayload where
  subject : String
  knowledge_points : List String
  tags : List String
deriving DecidableEq, Repr

/-- Local state of the chat-summary modal.  `showModal` renders the
source's `show` binding (a Lean keyword). -/
structure ModalState where
  showModal : Bool
  loading : Bool
  summaryData : SummaryData
  newKnowledgePoint : String
  newTag : String
deriving DecidableEq, Repr

/-- Caller-visible events dispatched by the modal. -/
inductive ModalEvent where
  | updated (data : SummaryData)
deriving DecidableEq, Repr

/-- JS `String.prototype.trim`, modelled on the character list: drop
leading and trailing whitespace characters. -/
def jsTrim (s : String) : String :=
  ⟨((s.data.dropWhile Char.isWhitespace).reverse.dropWhile Char.isWhitespace).reverse⟩

/-- The value of `existingSummary?.tags || []`: the existing summary's
tag list when a summary exists (a JS array is truthy even when empty),
and the empty list otherwise. -/
def existingTags (existingSummary : Option SummaryData) : List String :=
  match existingSummary with
  | some es => es.tags
  | none => []

/-- `generateSummary`: guarded on a non-empty `chatId`; calls the
summarization provider and on success spreads its result into
`summaryData` with `tags` overridden by `existingSummary?.tags || []`;
on failure leaves `summaryData` untouched.  The provider ($lib/apis
`summarizeChatById`, outside these sources) is modelled per the spec as
resolving with a response value or rejecting. -/
def generateSummary (chatId : String) (existingSummary : Option SummaryData)
    (provider : Except Unit SummaryData) (st : ModalState) : ModalState :=
  if chatId = "" then st
  else
    let st1 := { st with loading := true }
    match provider with
    | Except.ok result =>
        { st1 with
          summaryData := { result with tags := existingTags existingSummary }
          loading := false }
    | Except.error _ => { st1 with loading := false }

/-- The `{subject, knowledge_points, tags}` object `saveSummary` sends to
the update provider. -/
def savePayload (st : ModalState) : SummaryPayload :=
  { subject := st.summaryData.subject
    knowledge_points := st.summaryData.knowledge_points
    tags := st.summaryData.tags }

/-- `saveSummary`: guarded on a non-empty `chatId`; calls the update
provider with the current triple and on success dispatches the
`updated` event carrying `summaryData` and closes the modal; on failure
the edit state is left untouched.  The provider ($lib/apis
`updateChatSummaryById`, outside these sources) is modelled per the
spec as resolving (with a truthy result) or rejecting. -/
def saveSummary (chatId : String) (provider : SummaryPayload → Except Unit Unit)
    (st : ModalState) : ModalState × List ModalEvent :=
  if chatId = "" then (st, [])
  else
    let st1 := { st with loading := true }
    match provider (savePayload st) with
    | Except.ok _ =>
        ({ st1 with showModal := false, loading := false },
         [ModalEvent.updated st.summaryData])
    | Except.error _ => ({ st1 with loading := false }, [])

/-- The modal's `addKnowledgePoint` handler: when the trimmed input is
non-empty and not already selected, append the trimmed value and clear
the input field; otherwise do nothing. -/
def addKnowledgePoint (st : ModalState) : ModalState :=
  if jsTrim st.newKnowledgePoint != "" &&
      !(st.summaryData.knowledge_points.contains (jsTrim st.newKnowledgePoint)) then
    { st with
      summaryData := { st.summaryData with
        knowledge_points := st.summaryData.knowledge_points ++ [jsTrim st.newKnowledgePoint] }
      newKnowledgePoint := "" }
  else st

/-- The modal's `addTag` handler: when the trimmed input is non-empty and
not already selected, append the trimmed value and clear the input
field; otherwise do nothing. -/
def addTag (st : ModalState) : ModalState :=
  if jsTrim st.newTag != "" && !(st.summaryData.tags.contains (jsTrim st.newTag)) then
    { st with
      summaryData := { st.summaryData with tags := st.summaryData.tags ++ [jsTrim st.newTag] }
      newTag := "" }
  else st

end SummaryModal

namespace MistakeBook

/-- Per-subject statistics as returned by the statistics provider. -/
structure SubjectStat where
  mistakes : Nat
  total : Nat
  knowledge_points : List String
deriving DecidableEq, Repr

/-- `Object.values` over the `subjectStats` record, modelled as the list
of values of an association list. -/
def objectValues (subjectStats : List (String × SubjectStat)) : List SubjectStat :=
  subjectStats.map Prod.snd

/-- The reactive `totalMistakes` value: `mistakeChats.length`. -/
def totalMistakes (mistakeChats : List AnnotatedChat) : Nat :=
  mistakeChats.length

/-- The derived total of the overall-accuracy expression:
`Object.values(subjectStats).reduce((acc, stats) => acc + stats.total, 0)`. -/
def derivedTotal (subjectStats : List (String × SubjectStat)) : Nat :=
  (objectValues subjectStats).foldl (fun acc stats => acc + stats.total) 0

/-- The overall-accuracy expression rendered in the statistics panel:
when the derived total is positive, `Math.round((1 - totalMistakes /
total) * 100)` (real arithmetic modelled over ℚ; `round x = ⌊x + 1/2⌋`
matches `Math.round`), and `100` otherwise. -/
def overallAccuracy (mistakeChats : List AnnotatedChat)
    (subjectStats : List (String × SubjectStat)) : Int :=
  if derivedTotal subjectStats > 0 then
    round ((1 - (totalMistakes mistakeChats : ℚ) / (derivedTotal subjectStats : ℚ)) * 100)
  else 100

end MistakeBook

namespace LearningRecords

/-- A single rejected provider call leaves the cached result set
untouched: helper for the main failure-semantics theorem. -/
lemma performSearch_error_searchResults
    (provider : FilterCriteria → Except Unit (List Chat)) (getTimeRange : Nat → String)
    (st : PageState) (h : provider (buildFilters st) = Except.error ()) :
    (performSearch provider getTimeRange st).searchResults = st.searchResults := by
  have h1 : provider (buildFilters { st with loading := true, searchPerformed := true })
      = Except.error () := h
  simp [performSearch, h1]

/-- C1: a rejected search-provider call leaves `searchResults` equal to
its value before the call, and with a provider that always rejects, any
number of `performSearch` calls leaves the result set at its initial
value. -/
theorem performSearch_failure_preserves_results
    (provider : FilterCriteria → Except Unit (List Chat)) (getTimeRange : Nat → String)
    (st : PageState) :
    (provider (buildFilters st) = Except.error () →
      (performSearch provider getTimeRange st).searchResults = st.searchResults)
  ∧ ((∀ c, provider c = Except.error ()) →
      ∀ n, ((performSearch provider getTimeRange)^[n] st).searchResults = st.searchResults) := by
  refine ⟨performSearch_error_searchResults provider getTimeRange st, fun hall n => ?_⟩
  induction n generalizing st with
  | zero => rfl
  | succ n ih =>
      rw [Function.iterate_succ_apply]
      rw [ih (performSearch provider getTimeRange st)]
      exact performSearch_error_searchResults provider getTimeRange st (hall _)

/-- Concrete instance of C1: three calls against an always-rejecting
provider leave the initially cached single result in place. -/
theorem performSearch_failure_preserves_results_witness :
    ((performSearch (fun _ => Except.error ()) (fun _ => ""))^[3]
        { initPageState with
          searchResults := [{ id := "c1", title := "t", updated_at := 1700000000, meta := none,
                              time_range := "3 days ago" }] }).searchResults
      = [{ id := "c1", title := "t", updated_at := 1700000000, meta := none,
           time_range := "3 days ago" }] :=
  (performSearch_failure_preserves_results (fun _ => Except.error ()) (fun _ => "")
      { initPageState with
        searchResults := [{ id := "c1", title := "t", updated_at := 1700000000, meta := none,
                            time_range := "3 days ago" }] }).2 (fun _ => rfl) 3

/-- C3: for every filter state, the `hasFilters` flag is true exactly
when the criteria object built by `performSearch` has at least one key. -/
theorem hasFilters_iff_buildFilters_nonempty (st : PageState) :
    hasFilters st = true ↔ (buildFilters st).isEmpty = false := by
  simp only [hasFilters, buildFilters, FilterCriteria.isEmpty]
  by_cases hs : st.selectedSubject = "" <;>
    by_cases hk : st.selectedKnowledgePoints.length > 0 <;>
      by_cases ht : st.selectedTags.length > 0 <;>
        simp [hs, hk, ht]

/-- C4: the criteria object contains exactly the facets whose value is
non-empty — an empty facet is omitted (`none`), a non-empty one is
present with its value — and on the state `subject="Math"`,
`knowledge_points=["Algebra"]`, empty tags, it is `{subject := some
"Math", knowledge_points := some ["Algebra"], tags := none}`. -/
theorem buildFilters_exactly_nonempty_facets (st : PageState) :
    (st.selectedSubject = "" → (buildFilters st).subject = none)
  ∧ (st.selectedSubject ≠ "" → (buildFilters st).subject = some st.selectedSubject)
  ∧ (st.selectedKnowledgePoints = [] → (buildFilters st).knowledge_points = none)
  ∧ (st.selectedKnowledgePoints ≠ [] →
      (buildFilters st).knowledge_points = some st.selectedKnowledgePoints)
  ∧ (st.selectedTags = [] → (buildFilters st).tags = none)
  ∧ (st.selectedTags ≠ [] → (buildFilters st).tags = some st.selectedTags)
  ∧ buildFilters
      { initPageState with selectedSubject := "Math", selectedKnowledgePoints := ["Algebra"] }
      = { subject := some "Math", knowledge_points := some ["Algebra"], tags := none } :=
  ⟨fun h => by simp [buildFilters, h],
   fun h => by simp [buildFilters, h],
   fun h => by simp [buildFilters, h],
   fun h => by simp [buildFilters, List.length_pos, h],
   fun h => by simp [buildFilters, h],
   fun h => by simp [buildFilters, List.length_pos, h],
   by decide⟩

/-- Concrete instance of C4's conditional parts: the empty initial state
contributes no keys, and a non-empty subject is present verbatim. -/
theorem buildFilters_exactly_nonempty_facets_witness :
    (buildFilters initPageState).subject = none
  ∧ (buildFilters { initPageState with selectedSubject := "Math" }).subject = some "Math"
  ∧ (buildFilters initPageState).knowledge_points = none
  ∧ (buildFilters { initPageState with selectedKnowledgePoints := ["Algebra"] }).knowledge_points
      = some ["Algebra"]
  ∧ (buildFilters initPageState).tags = none
  ∧ (buildFilters { initPageState with selectedTags := ["q"] }).tags = some ["q"] :=
  ⟨(buildFilters_exactly_nonempty_facets initPageState).1 rfl,
   (buildFilters_exactly_nonempty_facets _).2.1 (by decide),
   (buildFilters_exactly_nonempty_facets initPageState).2.2.1 rfl,
   (buildFilters_exactly_nonempty_facets _).2.2.2.1 (by decide),
   (buildFilters_exactly_nonempty_facets initPageState).2.2.2.2.1 rfl,
   (buildFilters_exactly_nonempty_facets _).2.2.2.2.2.1 (by decide)⟩

/-- C5: after `clearFilters` every facet holds its empty value, the
cached result set is empty, and the criteria object built from the
cleared state has no keys. -/
theorem clearFilters_resets_everything (st : PageState) :
    (clearFilters st).selectedSubject = ""
  ∧ (clearFilters st).selectedKnowledgePoints = []
  ∧ (clearFilters st).selectedTags = []
  ∧ (clearFilters st).searchResults = []
  ∧ buildFilters (clearFilters st) = { subject := none, knowledge_points := none, tags := none }
  ∧ (buildFilters (clearFilters st)).isEmpty = true :=
  ⟨rfl, rfl, rfl, rfl, rfl, rfl⟩

end LearningRecords

/-- C6: result annotation preserves length and order, leaves every field
of each input record unchanged while attaching `time_range` computed by
the formatter from that record's `updated_at`, and on the record
`{id := "c1", updated_at := 1700000000}` with a formatter mapping that
timestamp to "3 days ago" it yields the same record plus
`time_range := "3 days ago"`. -/
theorem annotateChats_preserves_records (fmt : Nat → String) (chats : List Chat) :
    (annotateChats fmt chats).length = chats.length
  ∧ (∀ i (h1 : i < (annotateChats fmt chats).length) (h2 : i < chats.length),
      ((annotateChats fmt chats).get ⟨i, h1⟩).toChat = chats.get ⟨i, h2⟩
      ∧ ((annotateChats fmt chats).get ⟨i, h1⟩).time_range
          = fmt ((chats.get ⟨i, h2⟩).updated_at))
  ∧ (fmt 1700000000 = "3 days ago" →
      ∀ title meta,
        annotateChats fmt [{ id := "c1", title := title, updated_at := 1700000000, meta := meta }]
          = [{ id := "c1", title := title, updated_at := 1700000000, meta := meta,
               time_range := "3 days ago" }]) := by
  refine ⟨by simp [annotateChats], fun i h1 h2 => ?_, fun hf title meta => ?_⟩
  · simp [annotateChats, List.getElem_map]
  · simp [annotateChats, hf]

/-- Concrete instance of C6: annotating the single record
`{id := "c1", updated_at := 1700000000}` with a formatter that returns
"3 days ago". -/
theorem annotateChats_preserves_records_witness :
    (annotateChats (fun _ => "3 days ago")
        [{ id := "c1", title := "t", updated_at := 1700000000, meta := none }]).length = 1
  ∧ ((annotateChats (fun _ => "3 days ago")
        [{ id := "c1", title := "t", updated_at := 1700000000, meta := none }]).get
          ⟨0, by simp [annotateChats]⟩).time_range = "3 days ago"
  ∧ annotateChats (fun _ => "3 days ago")
        [{ id := "c1", title := "t", updated_at := 1700000000, meta := none }]
      = [{ id := "c1", title := "t", updated_at := 1700000000, meta := none,
           time_range := "3 days ago" }] := by
  refine ⟨?_, ?_, ?_⟩
  · simpa using (annotateChats_preserves_records (fun _ => "3 days ago")
      [{ id := "c1", title := "t", updated_at := 1700000000, meta := none }]).1
  · exact ((annotateChats_preserves_records (fun _ => "3 days ago")
      [{ id := "c1", title := "t", updated_at := 1700000000, meta := none }]).2.1 0
        (by simp [annotateChats]) (by simp)).2
  · exact (annotateChats_preserves_records (fun _ => "3 days ago")
      [{ id := "c1", title := "t", updated_at := 1700000000, meta := none }]).2.2 rfl "t" none

namespace LearningRecords

/-- Membership after one add action: the value is inserted, everything
else is preserved. -/
lemma mem_applyMultiOp_add (l : List String) (v w : String) :
    w ∈ applyMultiOp l (FacetOp.add v) ↔ w ∈ l ∨ w = v := by
  simp only [applyMultiOp]
  by_cases h : l.contains v
  · rw [if_pos h]
    have hv : v ∈ l := by simpa using h
    constructor
    · exact fun hw => Or.inl hw
    · rintro (hw | rfl)
      · exact hw
      · exact hv
  · rw [if_neg h]
    simp [List.mem_append]

/-- Membership after one remove action: exactly the other values
survive. -/
lemma mem_applyMultiOp_remove (l : List String) (v w : String) :
    w ∈ applyMultiOp l (FacetOp.remove v) ↔ w ∈ l ∧ w ≠ v := by
  simp [applyMultiOp, List.mem_filter]

/-- One facet action preserves freedom from duplicates. -/
lemma nodup_applyMultiOp (l : List String) (op : FacetOp) (h : l.Nodup) :
    (applyMultiOp l op).Nodup := by
  cases op with
  | add v =>
      simp only [applyMultiOp]
      by_cases hc : l.contains v
      · rwa [if_pos hc]
      · rw [if_neg hc]
        have hv : v ∉ l := by simpa using hc
        simp [List.nodup_append, h, hv]
  | remove v => exact h.filter _

/-- A whole action sequence preserves freedom from duplicates. -/
lemma nodup_runMultiOps (ops : List FacetOp) (l : List String) (h : l.Nodup) :
    (runMultiOps ops l).Nodup := by
  induction ops generalizing l with
  | nil => exact h
  | cons op ops ih => exact ih _ (nodup_applyMultiOp l op h)

/-- Splitting "some add of `v` with no later remove of `v`" across a
cons. -/
lemma added_not_removed_cons (op : FacetOp) (ops : List FacetOp) (v : String) :
    (∃ pre suf, op :: ops = pre ++ FacetOp.add v :: suf ∧ FacetOp.remove v ∉ suf)
  ↔ ((op = FacetOp.add v ∧ FacetOp.remove v ∉ ops)
      ∨ ∃ pre suf, ops = pre ++ FacetOp.add v :: suf ∧ FacetOp.remove v ∉ suf) := by
  constructor
  · rintro ⟨pre, suf, heq, hns⟩
    cases pre with
    | nil =>
        simp only [List.nil_append, List.cons.injEq] at heq
        exact Or.inl ⟨heq.1, heq.2 ▸ hns⟩
    | cons p pre =>
        simp only [List.cons_append, List.cons.injEq] at heq
        exact Or.inr ⟨pre, suf, heq.2, hns⟩
  · rintro (⟨rfl, hns⟩ | ⟨pre, suf, rfl, hns⟩)
    · exact ⟨[], ops, rfl, hns⟩
    · exact ⟨op :: pre, suf, rfl, hns⟩

/-- Characterization of membership after an action sequence from an
arbitrary start: either the value was added and not removed afterwards,
or it was present initially and never removed. -/
lemma mem_runMultiOps (ops : List FacetOp) (l : List String) (v : String) :
    v ∈ runMultiOps ops l
  ↔ ((∃ pre suf, ops = pre ++ FacetOp.add v :: suf ∧ FacetOp.remove v ∉ suf)
      ∨ (v ∈ l ∧ FacetOp.remove v ∉ ops)) := by
  induction ops generalizing l with
  | nil => simp [runMultiOps]
  | cons op ops ih =>
      rw [show runMultiOps (op :: ops) l = runMultiOps ops (applyMultiOp l op) from rfl,
        ih (applyMultiOp l op), added_not_removed_cons]
      cases op with
      | add w =>
          rw [mem_applyMultiOp_add]
          by_cases hvw : v = w
          · subst hvw
            simp only [List.mem_cons, FacetOp.add.injEq]
            constructor
            · rintro (hsplit | ⟨-, hns⟩)
              · exact Or.inl (Or.inr hsplit)
              · exact Or.inl (Or.inl ⟨trivial, hns⟩)
            · rintro ((⟨-, hns⟩ | hsplit) | ⟨hl, hns⟩)
              · exact Or.inr ⟨Or.inr trivial, hns⟩
              · exact Or.inl hsplit
              · exact Or.inr ⟨Or.inl hl, fun hm => hns (Or.inr hm)⟩
          · have hne : FacetOp.remove v ≠ FacetOp.add w := fun h => FacetOp.noConfusion h
            have hne2 : FacetOp.add w ≠ FacetOp.add v := by
              intro h
              exact hvw (FacetOp.add.inj h).symm
            simp only [List.mem_cons, hvw, or_false]
            constructor
            · rintro (hsplit | ⟨hl, hns⟩)
              · exact Or.inl (Or.inr hsplit)
              · exact Or.inr ⟨hl, fun hm => hns (hm.resolve_left hne)⟩
            · rintro ((⟨heq, -⟩ | hsplit) | ⟨hl, hns⟩)
              · exact absurd heq hne2
              · exact Or.inl hsplit
              · exact Or.inr ⟨hl, fun hm => hns (Or.inr hm)⟩
      | remove w =>
          rw [mem_applyMultiOp_remove]
          have hne2 : FacetOp.remove w ≠ FacetOp.add v := fun h => FacetOp.noConfusion h
          by_cases hvw : v = w
          · subst hvw
            simp only [List.mem_cons]
            constructor
            · rintro (hsplit | ⟨⟨-, hvv⟩, -⟩)
              · exact Or.inl (Or.inr hsplit)
              · exact absurd rfl hvv
            · rintro ((⟨heq, -⟩ | hsplit) | ⟨-, hns⟩)
              · exact absurd heq hne2
              · exact Or.inl hsplit
              · exact absurd (Or.inl trivial) hns
          · simp only [List.mem_cons]
            have hne3 : FacetOp.remove v ≠ FacetOp.remove w := by
              intro h
              exact hvw (FacetOp.remove.inj h)
            constructor
            · rintro (hsplit | ⟨⟨hl, -⟩, hns⟩)
              · exact Or.inl (Or.inr hsplit)
              · exact Or.inr ⟨hl, fun hm => hns (hm.resolve_left hne3)⟩
            · rintro ((⟨heq, -⟩ | hsplit) | ⟨hl, hns⟩)
              · exact absurd heq hne2
              · exact Or.inl hsplit
              · exact Or.inr ⟨⟨hl, hvw⟩, fun hm => hns (Or.inr hm)⟩

/-- The knowledge-points facet of the page state evolves exactly as the
underlying selection list. -/
lemma runKpOps_selectedKnowledgePoints (ops : List FacetOp) (st : PageState) :
    (runKpOps ops st).selectedKnowledgePoints = runMultiOps ops st.selectedKnowledgePoints := by
  induction ops generalizing st with
  | nil => rfl
  | cons op ops ih =>
      rw [show runKpOps (op :: ops) st = runKpOps ops (applyKpOp st op) from rfl, ih,
        show runMultiOps (op :: ops) st.selectedKnowledgePoints
          = runMultiOps ops (applyMultiOp st.selectedKnowledgePoints op) from rfl]
      congr 1
      cases op with
      | add v =>
          by_cases hm : v ∈ st.selectedKnowledgePoints <;>
            simp [applyKpOp, applyMultiOp, addKnowledgePoint, hm]
      | remove v => rfl

/-- The tags facet of the page state evolves exactly as the underlying
selection list. -/
lemma runTagOps_selectedTags (ops : List FacetOp) (st : PageState) :
    (runTagOps ops st).selectedTags = runMultiOps ops st.selectedTags := by
  induction ops generalizing st with
  | nil => rfl
  | cons op ops ih =>
      rw [show runTagOps (op :: ops) st = runTagOps ops (applyTagOp st op) from rfl, ih,
        show runMultiOps (op :: ops) st.selectedTags
          = runMultiOps ops (applyMultiOp st.selectedTags op) from rfl]
      congr 1
      cases op with
      | add v =>
          by_cases hm : v ∈ st.selectedTags <;>
            simp [applyTagOp, applyMultiOp, addTag, hm]
      | remove v => rfl

/-- C2: for every sequence of add / remove actions on a multi-valued
facet (knowledge points or tags) starting from the empty selection, the
selection never contains duplicates, adding an already-present value
leaves it unchanged, removing an absent value leaves it unchanged, and
a value is selected exactly when some add of it is not followed by a
remove of it. -/
theorem multi_facet_ops_exact (ops : List FacetOp) :
    ((runKpOps ops initPageState).selectedKnowledgePoints).Nodup
  ∧ ((runTagOps ops initPageState).selectedTags).Nodup
  ∧ (∀ v st, st.selectedKnowledgePoints.contains v = true →
      (addKnowledgePoint v st).selectedKnowledgePoints = st.selectedKnowledgePoints)
  ∧ (∀ v st, st.selectedKnowledgePoints.contains v = false →
      (removeKnowledgePoint v st).selectedKnowledgePoints = st.selectedKnowledgePoints)
  ∧ (∀ v st, st.selectedTags.contains v = true → (addTag v st).selectedTags = st.selectedTags)
  ∧ (∀ v st, st.selectedTags.contains v = false →
      (removeTag v st).selectedTags = st.selectedTags)
  ∧ (∀ v, v ∈ (runKpOps ops initPageState).selectedKnowledgePoints ↔
      ∃ pre suf, ops = pre ++ FacetOp.add v :: suf ∧ FacetOp.remove v ∉ suf)
  ∧ (∀ v, v ∈ (runTagOps ops initPageState).selectedTags ↔
      ∃ pre suf, ops = pre ++ FacetOp.add v :: suf ∧ FacetOp.remove v ∉ suf) := by
  refine ⟨?_, ?_, ?_, ?_, ?_, ?_, ?_, ?_⟩
  · rw [runKpOps_selectedKnowledgePoints]
    exact nodup_runMultiOps ops _ List.nodup_nil
  · rw [runTagOps_selectedTags]
    exact nodup_runMultiOps ops _ List.nodup_nil
  · intro v st h
    have hm : v ∈ st.selectedKnowledgePoints := by simpa using h
    simp [addKnowledgePoint, hm]
  · intro v st h
    have hv : v ∉ st.selectedKnowledgePoints := by simpa using h
    simp only [removeKnowledgePoint]
    exact List.filter_eq_self.mpr fun a ha => by
      simp only [bne_iff_ne, ne_eq, decide_eq_true_eq]
      rintro rfl
      exact hv ha
  · intro v st h
    have hm : v ∈ st.selectedTags := by simpa using h
    simp [addTag, hm]
  · intro v st h
    have hv : v ∉ st.selectedTags := by simpa using h
    simp only [removeTag]
    exact List.filter_eq_self.mpr fun a ha => by
      simp only [bne_iff_ne, ne_eq, decide_eq_true_eq]
      rintro rfl
      exact hv ha
  · intro v
    rw [runKpOps_selectedKnowledgePoints, mem_runMultiOps]
    simp [initPageState]
  · intro v
    rw [runTagOps_selectedTags, mem_runMultiOps]
    simp [initPageState]

/-- Concrete instance of C2's conditional parts: re-adding a selected
value and removing an absent one are no-ops, and a value added twice
then not removed is selected. -/
theorem multi_facet_ops_exact_witness :
    (addKnowledgePoint "a"
        { initPageState with selectedKnowledgePoints := ["a"] }).selectedKnowledgePoints = ["a"]
  ∧ (removeKnowledgePoint "b"
        { initPageState with selectedKnowledgePoints := ["a"] }).selectedKnowledgePoints = ["a"]
  ∧ (addTag "a" { initPageState with selectedTags := ["a"] }).selectedTags = ["a"]
  ∧ (removeTag "b" { initPageState with selectedTags := ["a"] }).selectedTags = ["a"]
  ∧ ("a" ∈ (runKpOps [FacetOp.add "a", FacetOp.add "a", FacetOp.remove "b"]
        initPageState).selectedKnowledgePoints ↔
      ∃ pre suf, [FacetOp.add "a", FacetOp.add "a", FacetOp.remove "b"]
        = pre ++ FacetOp.add "a" :: suf ∧ FacetOp.remove "a" ∉ suf) :=
  ⟨(multi_facet_ops_exact []).2.2.1 "a"
      { initPageState with selectedKnowledgePoints := ["a"] } (by decide),
   (multi_facet_ops_exact []).2.2.2.1 "b"
      { initPageState with selectedKnowledgePoints := ["a"] } (by decide),
   (multi_facet_ops_exact []).2.2.2.2.1 "a"
      { initPageState with selectedTags := ["a"] } (by decide),
   (multi_facet_ops_exact []).2.2.2.2.2.1 "b"
      { initPageState with selectedTags := ["a"] } (by decide),
   (multi_facet_ops_exact
      [FacetOp.add "a", FacetOp.add "a", FacetOp.remove "b"]).2.2.2.2.2.2.1 "a"⟩

end LearningRecords

namespace SummaryModal

/-- C7: when the update provider resolves, `saveSummary` dispatches the
`updated` event carrying the edited summary data; when it rejects, the
in-memory edit state (`summaryData`) is exactly what it was before the
call. -/
theorem saveSummary_success_and_failure (chatId : String)
    (provider : SummaryPayload → Except Unit Unit) (st : ModalState) (h : chatId ≠ "") :
    (provider (savePayload st) = Except.ok () →
      (saveSummary chatId provider st).2 = [ModalEvent.updated st.summaryData])
  ∧ (provider (savePayload st) = Except.error () →
      ((saveSummary chatId provider st).1).summaryData = st.summaryData) := by
  constructor <;> intro hp <;> simp [saveSummary, h, hp]

/-- Concrete instance of C7: a resolving provider yields the `updated`
event with the edited data; a rejecting one leaves `summaryData` in
place. -/
theorem saveSummary_success_and_failure_witness :
    (saveSummary "c1" (fun _ => Except.ok ())
        { showModal := true, loading := false
          summaryData :=
            { subject := "数学", knowledge_points := ["函数"], summary := "s", tags := ["复习"] }
          newKnowledgePoint := "", newTag := "" }).2
      = [ModalEvent.updated
          { subject := "数学", knowledge_points := ["函数"], summary := "s", tags := ["复习"] }]
  ∧ ((saveSummary "c1" (fun _ => Except.error ())
        { showModal := true, loading := false
          summaryData :=
            { subject := "数学", knowledge_points := ["函数"], summary := "s", tags := ["复习"] }
          newKnowledgePoint := "", newTag := "" }).1).summaryData
      = { subject := "数学", knowledge_points := ["函数"], summary := "s", tags := ["复习"] } :=
  ⟨(saveSummary_success_and_failure "c1" (fun _ => Except.ok ())
      { showModal := true, loading := false
        summaryData :=
          { subject := "数学", knowledge_points := ["函数"], summary := "s", tags := ["复习"] }
        newKnowledgePoint := "", newTag := "" } (by decide)).1 rfl,
   (saveSummary_success_and_failure "c1" (fun _ => Except.error ())
      { showModal := true, loading := false
        summaryData :=
          { subject := "数学", knowledge_points := ["函数"], summary := "s", tags := ["复习"] }
        newKnowledgePoint := "", newTag := "" } (by decide)).2 rfl⟩

/-- C9: a successful regeneration replaces subject, knowledge points and
summary text with the provider's values while `tags` becomes the
existing summary's tag list — the empty list when no summary exists —
regardless of any tags carried by the provider's response. -/
theorem generateSummary_keeps_existing_tags (chatId : String)
    (existingSummary : Option SummaryData) (st : ModalState) (result : SummaryData)
    (h : chatId ≠ "") :
    (generateSummary chatId existingSummary (Except.ok result) st).summaryData
      = { result with tags := existingTags existingSummary }
  ∧ existingTags none = []
  ∧ (∀ es, existingTags (some es) = es.tags) := by
  refine ⟨?_, rfl, fun es => rfl⟩
  simp [generateSummary, h]

/-- Concrete instance of C9: a provider response carrying its own tags
has them discarded in favour of the existing summary's tags. -/
theorem generateSummary_keeps_existing_tags_witness :
    (generateSummary "c1"
        (some { subject := "数学", knowledge_points := [], summary := "", tags := ["旧标签"] })
        (Except.ok
          { subject := "物理", knowledge_points := ["力学"], summary := "new", tags := ["新标签"] })
        { showModal := true, loading := false
          summaryData := { subject := "", knowledge_points := [], summary := "", tags := [] }
          newKnowledgePoint := "", newTag := "" }).summaryData
      = { subject := "物理", knowledge_points := ["力学"], summary := "new", tags := ["旧标签"] } :=
  (generateSummary_keeps_existing_tags "c1"
      (some { subject := "数学", knowledge_points := [], summary := "", tags := ["旧标签"] })
      { showModal := true, loading := false
        summaryData := { subject := "", knowledge_points := [], summary := "", tags := [] }
        newKnowledgePoint := "", newTag := "" }
      { subject := "物理", knowledge_points := ["力学"], summary := "new", tags := ["新标签"] }
      (by decide)).1

/-- C10: the modal's add handlers trim the input before testing
membership and storing; an input whose trimmed form is empty is a
no-op that leaves the whole state (input field included) unchanged; a
trimmed value already present is likewise a no-op; otherwise the
trimmed value is appended and the input field cleared. -/
theorem modal_add_trims_and_guards (st : ModalState) :
    (jsTrim st.newKnowledgePoint = "" → addKnowledgePoint st = st)
  ∧ (jsTrim st.newTag = "" → addTag st = st)
  ∧ (jsTrim st.newKnowledgePoint ≠ "" →
      st.summaryData.knowledge_points.contains (jsTrim st.newKnowledgePoint) = false →
      addKnowledgePoint st
        = { st with
            summaryData := { st.summaryData with
              knowledge_points :=
                st.summaryData.knowledge_points ++ [jsTrim st.newKnowledgePoint] }
            newKnowledgePoint := "" })
  ∧ (jsTrim st.newKnowledgePoint ≠ "" →
      st.summaryData.knowledge_points.contains (jsTrim st.newKnowledgePoint) = true →
      addKnowledgePoint st = st)
  ∧ (jsTrim st.newTag ≠ "" → st.summaryData.tags.contains (jsTrim st.newTag) = false →
      addTag st
        = { st with
            summaryData := { st.summaryData with tags := st.summaryData.tags ++ [jsTrim st.newTag] }
            newTag := "" })
  ∧ (jsTrim st.newTag ≠ "" → st.summaryData.tags.contains (jsTrim st.newTag) = true →
      addTag st = st) := by
  refine ⟨fun h => ?_, fun h => ?_, fun h1 h2 => ?_, fun h1 h2 => ?_, fun h1 h2 => ?_,
    fun h1 h2 => ?_⟩ <;>
    simp_all [addKnowledgePoint, addTag]

/-- Concrete instance of C10: a whitespace-only input changes nothing
(the field keeps its raw text), and the input `" 函数 "` stores the
trimmed `"函数"` and clears the field. -/
theorem modal_add_trims_and_guards_witness :
    addKnowledgePoint
        { showModal := true, loading := false
          summaryData := { subject := "", knowledge_points := [], summary := "", tags := [] }
          newKnowledgePoint := "   ", newTag := "" }
      = { showModal := true, loading := false
          summaryData := { subject := "", knowledge_points := [], summary := "", tags := [] }
          newKnowledgePoint := "   ", newTag := "" }
  ∧ addKnowledgePoint
        { showModal := true, loading := false
          summaryData := { subject := "", knowledge_points := [], summary := "", tags := [] }
          newKnowledgePoint := " 函数 ", newTag := "" }
      = { showModal := true, loading := false
          summaryData := { subject := "", knowledge_points := ["函数"], summary := "", tags := [] }
          newKnowledgePoint := "", newTag := "" }
  ∧ addTag
        { showModal := true, loading := false
          summaryData := { subject := "", knowledge_points := [], summary := "", tags := ["复习"] }
          newKnowledgePoint := "", newTag := "复习" }
      = { showModal := true, loading := false
          summaryData := { subject := "", knowledge_points := [], summary := "", tags := ["复习"] }
          newKnowledgePoint := "", newTag := "复习" } := by
  refine ⟨?_, ?_, ?_⟩
  · exact (modal_add_trims_and_guards
      { showModal := true, loading := false
        summaryData := { subject := "", knowledge_points := [], summary := "", tags := [] }
        newKnowledgePoint := "   ", newTag := "" }).1 (by decide)
  · have h := (modal_add_trims_and_guards
      { showModal := true, loading := false
        summaryData := { subject := "", knowledge_points := [], summary := "", tags := [] }
        newKnowledgePoint := " 函数 ", newTag := "" }).2.2.1 (by decide) (by decide)
    simpa using h
  · exact (modal_add_trims_and_guards
      { showModal := true, loading := false
        summaryData := { subject := "", knowledge_points := [], summary := "", tags := ["复习"] }
        newKnowledgePoint := "", newTag := "复习" }).2.2.2.2.2 (by decide) (by decide)

end SummaryModal

namespace MistakeBook

/-- C8: the displayed overall accuracy is exactly 100 when the derived
total is zero, and `round((1 - mistakes / total) * 100)` when the total
is positive — the division is only reached under the positive guard. -/
theorem overallAccuracy_guarded (mistakeChats : List AnnotatedChat)
    (subjectStats : List (String × SubjectStat)) :
    (derivedTotal subjectStats = 0 → overallAccuracy mistakeChats subjectStats = 100)
  ∧ (0 < derivedTotal subjectStats →
      overallAccuracy mistakeChats subjectStats
        = round ((1 - (totalMistakes mistakeChats : ℚ) / (derivedTotal subjectStats : ℚ))
            * 100)) := by
  constructor <;> intro h <;> simp [overallAccuracy, h]

/-- Concrete instance of C8: with no per-subject statistics the display
is 100; with one mistake out of four records it is 75. -/
theorem overallAccuracy_guarded_witness :
    overallAccuracy ([] : List AnnotatedChat) [] = 100
  ∧ overallAccuracy
      [{ id := "c1", title := "t", updated_at := 0, meta := none, time_range := "" }]
      [("数学", { mistakes := 1, total := 4, knowledge_points := ["函数"] })] = 75 := by
  constructor
  · exact (overallAccuracy_guarded [] []).1 rfl
  · have h := (overallAccuracy_guarded
      [{ id := "c1", title := "t", updated_at := 0, meta := none, time_range := "" }]
      [("数学", { mistakes := 1, total := 4, knowledge_points := ["函数"] })]).2 (by decide)
    rw [h]
    norm_num [totalMistakes, derivedTotal, objectValues, round_eq]

end MistakeBook
